import Mathlib

set_option maxRecDepth 100000

/-!
Shallow embedding of the path-query compiler and path-decomposition engine of
the Six-Degrees-Of-Kevin-Bacon service (`src/web/pages/api/graphql.ts`).

The embedded functions mirror the TypeScript resolvers:
  * `create_filter`  — compiles one category filter object to a Cypher
    predicate string (source lines 381-412);
  * `build_query`    — assembles the constrained shortest-path Cypher query
    (source lines 339-379);
  * `find_path`      — executes the query and decomposes the returned path
    into (person, relationship, project) triples, issuing the parent-show
    enrichment sub-lookup for episode projects (source lines 214-261);
  * `MovieOrTvEpisode_resolveType` — the structural type resolver
    (source lines 291-301).

JavaScript-specific behaviour (template-literal stringification, truthiness,
object-key iteration order, out-of-bounds indexing yielding `undefined`,
unawaited promises) is modelled explicitly.  Curly braces inside query text
are written with `\x7b`/`\x7d` escapes and double quotes with `\x22`.
-/

/-- A JavaScript value appearing as a filter operand.  `date` holds the
string rendering of a neo4j `Date` object (e.g. "2020-01-01"); the
last constructor models JavaScript undefined. -/
inductive FilterValue where
  | int (n : Int)
  | str (s : String)
  | bool (b : Bool)
  | date (d : String)
  | list (vs : List FilterValue)
  | undefined

/-- Comma join used by array stringification. -/
def jsJoinComma : List String → String
  | [] => ""
  | [s] => s
  | s :: rest => s ++ "," ++ jsJoinComma rest

mutual

/-- Template-literal stringification of a JavaScript value (`${v}`):
numbers print in decimal, strings print verbatim (unquoted), arrays join
their elements with commas, `undefined` prints as "undefined". -/
def jsToString : FilterValue → String
  | .int n => toString n
  | .str s => s
  | .bool b => if b then "true" else "false"
  | .date d => d
  | .list vs => jsJoinComma (jsToStringList vs)
  | .undefined => "undefined"

/-- Stringification of each element of an array value. -/
def jsToStringList : List FilterValue → List String
  | [] => []
  | v :: rest => jsToString v :: jsToStringList rest

end

/-- The `values` computed for one filter entry (source lines 384-389):
a scalar neo4j `Date` is wrapped into a one-element array holding the text
of a Cypher date literal; every other value is kept as is.  An array of
dates is NOT a `Date` instance, so it is kept raw. -/
def entryValues : FilterValue → FilterValue
  | .date d => .list [.str ("date(\x22" ++ d ++ "\x22)")]
  | v => v

/-- JavaScript indexing `v[i]`: element of an array when in bounds,
`undefined` otherwise (including indexing a non-array). -/
def jsIndexVal : FilterValue → Nat → FilterValue
  | .list vs, i => match vs.get? i with
    | some v => v
    | none => .undefined
  | _, _ => .undefined

/-- Text of `${values[i]}`. -/
def jsIndexStr (v : FilterValue) (i : Nat) : String :=
  jsToString (jsIndexVal v i)

/-- Characters before the first occurrence of `sep` (the whole list when
`sep` does not occur); this is JavaScript `s.split(sep)[0]`. -/
def takeUntil (sep : List Char) : List Char → List Char
  | [] => []
  | c :: rest =>
    if List.isPrefixOf sep (c :: rest) then []
    else c :: takeUntil sep rest

/-- JavaScript `s.split(sep)[0]`. -/
def jsSplitFirst (s sep : String) : String :=
  ⟨takeUntil sep.data s.data⟩

/-- JavaScript `s.endsWith(suf)`. -/
def jsEndsWith (s suf : String) : Bool :=
  List.isSuffixOf suf.data s.data

/-- JavaScript `Array.prototype.join(sep)`. -/
def jsJoin (sep : String) : List String → String
  | [] => ""
  | [s] => s
  | s :: rest => s ++ sep ++ jsJoin sep rest

/-- The Cypher text compiled for one filter entry `x: v` — the `switch` of
`create_filter` (source lines 390-409), cases tested in source order. -/
def compileEntryString (x : String) (v : FilterValue) : String :=
  let values := entryValues v
  if jsEndsWith x "_GT" then
    "r." ++ jsSplitFirst x "_GT" ++ " > " ++ jsToString values
  else if jsEndsWith x "_LT" then
    "r." ++ jsSplitFirst x "_LT" ++ " < " ++ jsToString values
  else if jsEndsWith x "_GTE" then
    "r." ++ jsSplitFirst x "_GTE" ++ " >= " ++ jsToString values
  else if jsEndsWith x "_LTE" then
    "r." ++ jsSplitFirst x "_LTE" ++ " <= " ++ jsToString values
  else if jsEndsWith x "_IN" then
    jsIndexStr values 0 ++ " <= r." ++ jsSplitFirst x "_IN" ++ " <= " ++ jsIndexStr values 1
  else
    "r." ++ x ++ " = " ++ jsToString values

/-- A category filter object: field-name/operand pairs in object-key
iteration order. -/
abbrev FilterMap := List (String × FilterValue)

/-- `create_filter` (source lines 381-412): compiles each entry and joins
the sub-predicates with " AND ".  It is total — no validation of field
names or operand types occurs anywhere in it. -/
def create_filter (filter : FilterMap) : String :=
  jsJoin " AND " (filter.map fun e => compileEntryString e.1 e.2)

/-- The `PathFilters` input object (source lines 116-120). -/
structure PathFilters where
  movie_filter : Option FilterMap
  tv_filter : Option FilterMap
  person_filter : Option FilterMap

/-- The arguments of the `find_path` query (source `PathArgs`). -/
structure PathArgs where
  first_person_id : Int
  second_person_id : Int
  filters : Option PathFilters

/-- The MATCH header template of `build_query` (source lines 340-343),
byte-for-byte including the template literal's newlines and indentation. -/
def queryHeader (a b : Int) : String :=
  "MATCH\n                  (p1:Person \x7bperson_id: " ++ toString a ++
  "\x7d),\n                  (p2:Person \x7bperson_id: " ++ toString b ++
  "\x7d),\n                  p = shortestPath((p1)-[*]-(p2))"

/-- JavaScript truthiness of a nullable string: `null` and `""` are falsy. -/
def strTruthy : Option String → Bool
  | none => false
  | some s => !(s == "")

/-- `build_query` (source lines 339-379).  Each present category filter is
compiled with `create_filter`; a ` WHERE ` is appended when any filter
object is present (even an empty one); each compiled filter string is
guarded by JavaScript string truthiness before being wrapped into its
`all(...)` clause; the person clause appends the two endpoint-identity
disjuncts.  All operand text and both person identifiers are spliced
directly into the returned query string. -/
def build_query (args : PathArgs) : String :=
  let q0 := queryHeader args.first_person_id args.second_person_id
  let MovieFilter : Option String :=
    match args.filters with
    | some fs => match fs.movie_filter with
      | some f => some (create_filter f)
      | none => none
    | none => none
  let TvFilter : Option String :=
    match args.filters with
    | some fs => match fs.tv_filter with
      | some f => some (create_filter f)
      | none => none
    | none => none
  let PersonFilter : Option String :=
    match args.filters with
    | some fs => match fs.person_filter with
      | some f => some (create_filter f)
      | none => none
    | none => none
  let anyFilter : Bool :=
    match args.filters with
    | some fs =>
      fs.person_filter.isSome || fs.movie_filter.isSome || fs.tv_filter.isSome
    | none => false
  let q1 := if anyFilter then q0 ++ " WHERE " else q0
  let clauses : List String :=
    (if strTruthy MovieFilter then
      ["all(r IN [x in nodes(p) where x:Movie] WHERE " ++ MovieFilter.getD "" ++ ")"]
     else []) ++
    (if strTruthy TvFilter then
      ["all(r IN [x in nodes(p) where x:TvEpisode] WHERE " ++ TvFilter.getD "" ++ ")"]
     else []) ++
    (if strTruthy PersonFilter then
      ["all(r IN [x in nodes(p) where x:Person] WHERE " ++ PersonFilter.getD "" ++
       " OR r.person_id = " ++ toString args.first_person_id ++
       " OR r.person_id = " ++ toString args.second_person_id ++ ")"]
     else []) ++ []
  (q1 ++ jsJoin " AND " clauses) ++ " RETURN p"

/-- A JavaScript value stored as a node or relationship property. -/
inductive JsVal where
  | int (n : Int)
  | str (s : String)
  | bool (b : Bool)
  | null

/-- Property map of a returned graph record, in object-key order. -/
abbrev PropMap := List (String × JsVal)

/-- Property access `obj[k]`: `none` models an absent key. -/
def getProp (m : PropMap) (k : String) : Option JsVal :=
  (m.find? fun e => e.1 == k).map fun e => e.2

/-- JavaScript truthiness of a possibly-absent property value. -/
def jsTruthy : Option JsVal → Bool
  | none => false
  | some .null => false
  | some (.int n) => !(n == 0)
  | some (.str s) => !(s == "")
  | some (.bool b) => b

/-- Template-literal text of a possibly-absent property value
(`${obj.k}` prints "undefined" when the key is absent). -/
def jsValText : Option JsVal → String
  | none => "undefined"
  | some (.int n) => toString n
  | some (.str s) => s
  | some (.bool b) => if b then "true" else "false"
  | some .null => "null"

/-- Direction of the underlying stored relationship of a path segment
relative to traversal order.  The decomposition loop never reads it. -/
inductive EdgeDir where
  | along
  | against

/-- A node of a returned path, with its labels and properties. -/
structure NodeRec where
  labels : List String
  properties : PropMap

/-- A relationship of a returned path. -/
structure RelRec where
  relType : String
  properties : PropMap
  direction : EdgeDir

/-- One path segment: `start` and `finish` model the driver's
`segment.start` / `segment.end` nodes in traversal order. -/
structure Segment where
  start : NodeRec
  relationship : RelRec
  finish : NodeRec

/-- The path object `res.records[i].get(0)` of the traversal result. -/
structure PathValue where
  segments : List Segment

/-- Result of `driver.executeQuery`: the list of returned records, each
identified with its first (and only) column, the path. -/
structure QueryResult where
  records : List PathValue

/-- State of the `parent_show` field of a decomposed project at the moment
`find_path`'s result is returned.  `pendingPromise` is an assigned but
unawaited promise carrying its eventual settlement: `Except.ok` the
looked-up record, `Except.error` the `TypeError` thrown when the lookup
returned no record.  `resolvedRecord`/`nullAttachment` are the states a
completed enrichment would produce; `noAttachment` means the field was
never assigned (non-episode project). -/
inductive ShowAttachment where
  | noAttachment
  | pendingPromise (eventual : Except String PropMap)
  | resolvedRecord (props : PropMap)
  | nullAttachment

/-- A decomposed project: the node properties plus the `parent_show`
field the enrichment step writes into them. -/
structure ProjectOut where
  props : PropMap
  parent_show : ShowAttachment

/-- One output triple of `find_path`. -/
structure TripleOut where
  person : PropMap
  relationship : PropMap
  project : ProjectOut

/-- The episode-enrichment step of `find_path` (source lines 220-231 and
239-250): when the project has an `episode_id` key, a parent-show lookup
is started through `runLookup` and the resulting promise — not its value —
is assigned to `parent_show`.  The promise's eventual settlement indexes
`records[0]` of the lookup result, so an empty result rejects with a
`TypeError` instead of settling to null. -/
def attach_parent_show (runLookup : String → List PropMap)
    (project : PropMap) : ProjectOut :=
  if (getProp project "episode_id").isSome then
    let lookupQuery :=
      "MATCH (tvShow:TvShow\x7btv_id:" ++ jsValText (getProp project "tv_show_id") ++
      "\x7d) RETURN tvShow"
    let eventual : Except String PropMap :=
      match (runLookup lookupQuery).head? with
      | some rec0 => .ok rec0
      | none => .error "TypeError: cannot read get of undefined"
    ⟨project, .pendingPromise eventual⟩
  else ⟨project, .noAttachment⟩

/-- The `find_path` resolver (source lines 214-261): builds the query with
`build_query`, runs it through `executeQuery`, indexes `records[0]` of the
result — a `TypeError` (modelled as `Except.error`) when no record came
back — and walks the segments, emitting one triple per segment: at even
indices person := segment.start and project := segment.end, at odd indices
the two are swapped.  No structural check of the segment is performed.
`decomposeTriple` is the body of the decomposition loop at index/segment
pair `e`; `find_path` maps it over the enumerated segments. -/
def decomposeTriple (runLookup : String → List PropMap)
    (e : Nat × Segment) : TripleOut :=
  if e.1 % 2 = 0 then
    { person := e.2.start.properties
      relationship := e.2.relationship.properties
      project := attach_parent_show runLookup e.2.finish.properties }
  else
    { person := e.2.finish.properties
      relationship := e.2.relationship.properties
      project := attach_parent_show runLookup e.2.start.properties }

def find_path (executeQuery : String → QueryResult)
    (runLookup : String → List PropMap) (args : PathArgs) :
    Except String (List TripleOut) :=
  let query := build_query args
  let res := executeQuery query
  match res.records.head? with
  | none => .error "TypeError: cannot read get of undefined"
  | some path => .ok (path.segments.enum.map (decomposeTriple runLookup))

/-- The structural type resolver `MovieOrTvEpisode.__resolveType`
(source lines 291-301): a JavaScript-truthy `movie_id` selects "Movie", a
truthy `tv_show_id` selects "TvEpisode", anything else yields `null`
(modelled as `none`). -/
def MovieOrTvEpisode_resolveType (obj : PropMap) : Option String :=
  if jsTruthy (getProp obj "movie_id") then some "Movie"
  else if jsTruthy (getProp obj "tv_show_id") then some "TvEpisode"
  else none

/-- Comparison operators appearing in compiled Cypher predicates. -/
inductive CmpOp where
  | eq
  | gt
  | lt
  | ge
  | le

/-- Cypher text of a comparison operator. -/
def cmpOpText : CmpOp → String
  | .eq => "="
  | .gt => ">"
  | .lt => "<"
  | .ge => ">="
  | .le => "<="

/-- Abstract syntax of one compiled sub-predicate, the parse of the text
`create_filter` emits for one entry under Cypher operator precedence.
`cmp` is `r.field <op> arg`; `between` is the chained comparison
`lo <= r.field <= hi`, which Cypher reads as the conjunction of its two
inequalities; `member` is a Cypher list-membership test `r.field IN [...]`
— included to express what `create_filter` never produces. -/
inductive CPred where
  | cmp (field : String) (op : CmpOp) (arg : FilterValue)
  | between (lo : FilterValue) (field : String) (hi : FilterValue)
  | member (field : String) (args : List FilterValue)

/-- Cypher text of a sub-predicate. -/
def renderPred : CPred → String
  | .cmp f op a => "r." ++ f ++ " " ++ cmpOpText op ++ " " ++ jsToString a
  | .between lo f hi => jsToString lo ++ " <= r." ++ f ++ " <= " ++ jsToString hi
  | .member f args => "r." ++ f ++ " IN [" ++ jsJoinComma (jsToStringList args) ++ "]"

/-- Structured form of the text `compileEntryString` emits: the same
suffix dispatch, producing a `CPred` instead of its rendering. -/
def compileEntry (x : String) (v : FilterValue) : CPred :=
  let values := entryValues v
  if jsEndsWith x "_GT" then .cmp (jsSplitFirst x "_GT") .gt values
  else if jsEndsWith x "_LT" then .cmp (jsSplitFirst x "_LT") .lt values
  else if jsEndsWith x "_GTE" then .cmp (jsSplitFirst x "_GTE") .ge values
  else if jsEndsWith x "_LTE" then .cmp (jsSplitFirst x "_LTE") .le values
  else if jsEndsWith x "_IN" then
    .between (jsIndexVal values 0) (jsSplitFirst x "_IN") (jsIndexVal values 1)
  else .cmp x .eq values

/-- Boolean combinations of compiled sub-predicates. -/
inductive BExpr where
  | pred (p : CPred)
  | and (a b : BExpr)
  | or (a b : BExpr)

/-- Cypher text of a boolean combination; `AND` binds tighter than `OR` in
Cypher, so the flat text of the shapes built here parses back to the same
tree. -/
def renderB : BExpr → String
  | .pred p => renderPred p
  | .and a b => renderB a ++ " AND " ++ renderB b
  | .or a b => renderB a ++ " OR " ++ renderB b

/-- Structured form of a whole compiled category filter: the left-nested
`AND` of its entries' sub-predicates (the parse of the " AND "-join).
The value for the empty filter is irrelevant — `create_filter` then
returns `""`, which `build_query` discards as falsy. -/
def compileFilterExpr : FilterMap → BExpr
  | [] => .pred (.cmp "" .eq .undefined)
  | e :: rest =>
    rest.foldl (fun acc e2 => .and acc (.pred (compileEntry e2.1 e2.2)))
      (.pred (compileEntry e.1 e.2))

/-- Structured form of the person constraint `build_query` places inside
the person `all(...)` clause: the compiled person filter, `OR`-ed with the
two endpoint-identity tests (source line 373; `OR` is left-associative). -/
def personClause (pf : FilterMap) (a b : Int) : BExpr :=
  .or (.or (compileFilterExpr pf) (.pred (.cmp "person_id" .eq (.int a))))
    (.pred (.cmp "person_id" .eq (.int b)))

/-- Integer reading of an operand, `none` for non-integer operands. -/
def asInt : FilterValue → Option Int
  | .int n => some n
  | _ => none

/-- Meaning of `x <op> y` on integers, node value on the left. -/
def cmpOpInterp : CmpOp → Int → Int → Bool
  | .eq, x, y => x == y
  | .gt, x, y => decide (y < x)
  | .lt, x, y => decide (x < y)
  | .ge, x, y => decide (y ≤ x)
  | .le, x, y => decide (x ≤ y)

/-- Cypher three-valued disjunction: `true` absorbs `null`. -/
def or3 : Option Bool → Option Bool → Option Bool
  | some true, _ => some true
  | _, some true => some true
  | some false, some false => some false
  | _, _ => none

/-- Cypher three-valued conjunction: `false` absorbs `null`. -/
def and3 : Option Bool → Option Bool → Option Bool
  | some false, _ => some false
  | _, some false => some false
  | some true, some true => some true
  | _, _ => none

/-- Evaluation of one sub-predicate on a node whose integer-valued
properties are given by `ρ` (`none` models an absent property or a
non-integer operand, evaluating to Cypher `null`). -/
def evalPred (ρ : String → Option Int) : CPred → Option Bool
  | .cmp f op a =>
    match ρ f, asInt a with
    | some x, some n => some (cmpOpInterp op x n)
    | _, _ => none
  | .between lo f hi =>
    match asInt lo, ρ f, asInt hi with
    | some la, some x, some lb => some (decide (la ≤ x) && decide (x ≤ lb))
    | _, _, _ => none
  | .member f args =>
    match ρ f with
    | some x => some ((args.filterMap asInt).contains x)
    | none => none

/-- Evaluation of a boolean combination under Cypher three-valued logic. -/
def evalB (ρ : String → Option Int) : BExpr → Option Bool
  | .pred p => evalPred ρ p
  | .and a b => and3 (evalB ρ a) (evalB ρ b)
  | .or a b => or3 (evalB ρ a) (evalB ρ b)

/-- Substring test on strings. -/
def strContains (s pat : String) : Bool :=
  decide (pat.data <:+: s.data)

/-- Whether a returned node carries the `Person` label. -/
def isPersonNode (n : NodeRec) : Bool :=
  n.labels.contains "Person"

/-- The Person-side node of a segment, when the segment connects exactly
one Person-labelled node and one non-Person node. -/
def personSide (seg : Segment) : Option NodeRec :=
  match isPersonNode seg.start, isPersonNode seg.finish with
  | true, false => some seg.start
  | false, true => some seg.finish
  | _, _ => none

/-- The Project-side (non-Person) node of such a segment. -/
def projectSide (seg : Segment) : Option NodeRec :=
  match isPersonNode seg.start, isPersonNode seg.finish with
  | true, false => some seg.finish
  | false, true => some seg.start
  | _, _ => none

/-- Structural invariant of a path returned by the traversal between two
Person endpoints: nodes alternate Person / Project along the path, the
first node being a Person. -/
def Alternates (segs : List Segment) : Prop :=
  ∀ i (h : i < segs.length),
    if i % 2 = 0 then
      isPersonNode (segs.get ⟨i, h⟩).start = true ∧
        isPersonNode (segs.get ⟨i, h⟩).finish = false
    else
      isPersonNode (segs.get ⟨i, h⟩).start = false ∧
        isPersonNode (segs.get ⟨i, h⟩).finish = true

/-- A sample well-formed one-segment path: a Person connected to a Movie
by a cast edge. -/
def sampleSeg : Segment :=
  { start := { labels := ["Person"], properties := [("person_id", .int 1)] }
    relationship := { relType := "CAST_FOR"
                      properties := [("credit_id", .str "c1")]
                      direction := .along }
    finish := { labels := ["Movie"], properties := [("movie_id", .int 9)] } }

/-- Properties of a sample TvEpisode node: identified by `episode_id`,
referencing its show through `tv_show_id`. -/
def episodeProps : PropMap :=
  [("episode_id", .int 3659603), ("tv_show_id", .int 155513)]

/-- A sample one-segment path whose project is a TvEpisode. -/
def episodeSeg : Segment :=
  { start := { labels := ["Person"], properties := [("person_id", .int 1)] }
    relationship := { relType := "CAST_FOR"
                      properties := [("credit_id", .str "c1")]
                      direction := .along }
    finish := { labels := ["TvEpisode"], properties := episodeProps } }

/-- A sample malformed segment connecting two Person nodes and no
Project node. -/
def malformedSeg : Segment :=
  { start := { labels := ["Person"], properties := [("person_id", .int 1)] }
    relationship := { relType := "CAST_FOR"
                      properties := [("credit_id", .str "c2")]
                      direction := .along }
    finish := { labels := ["Person"], properties := [("person_id", .int 2)] } }

example : create_filter [("budget_GT", .int 5)] = "r.budget > 5" := by rfl

example :
    create_filter [("release_date_GT", .date "2020-01-01")] =
      "r.release_date > date(\x222020-01-01\x22)" := by rfl

example :
    create_filter [("release_date_IN", .list [.date "2020-01-01", .date "2021-01-01"])] =
      "2020-01-01 <= r.release_date <= 2021-01-01" := by rfl

example :
    build_query ⟨1, 2, none⟩ =
      "MATCH\n                  (p1:Person \x7bperson_id: 1\x7d),\n                  (p2:Person \x7bperson_id: 2\x7d),\n                  p = shortestPath((p1)-[*]-(p2)) RETURN p" := by
  rfl

/-- The text compiled for one entry is the rendering of its structured
form: `compileEntryString` and `compileEntry` share one suffix dispatch. -/
theorem compileEntryString_eq_render (x : String) (v : FilterValue) :
    compileEntryString x v = renderPred (compileEntry x v) := by
  by_cases h1 : jsEndsWith x "_GT" = true <;>
    by_cases h2 : jsEndsWith x "_LT" = true <;>
      by_cases h3 : jsEndsWith x "_GTE" = true <;>
        by_cases h4 : jsEndsWith x "_LTE" = true <;>
          by_cases h5 : jsEndsWith x "_IN" = true <;>
            simp [compileEntryString, compileEntry, renderPred, cmpOpText,
              jsIndexStr, h1, h2, h3, h4, h5, String.append_assoc]

/-- Joining a list whose head already ends in the separator re-associates. -/
theorem jsJoin_cons_append (sep a b : String) (l : List String) :
    jsJoin sep ((a ++ sep ++ b) :: l) = a ++ sep ++ jsJoin sep (b :: l) := by
  cases l <;> simp [jsJoin, String.append_assoc]

/-- Rendering of the left-nested `AND` fold of the remaining entries. -/
theorem renderB_foldl (rest : FilterMap) (acc : BExpr) :
    renderB (rest.foldl (fun a e2 => .and a (.pred (compileEntry e2.1 e2.2))) acc) =
      jsJoin " AND " (renderB acc :: rest.map fun e => compileEntryString e.1 e.2) := by
  induction rest generalizing acc with
  | nil => simp [jsJoin]
  | cons e r ih =>
    simp only [List.foldl_cons, List.map_cons]
    rw [ih]
    have hacc : renderB (.and acc (.pred (compileEntry e.1 e.2))) =
        renderB acc ++ " AND " ++ renderPred (compileEntry e.1 e.2) := rfl
    rw [hacc, ← compileEntryString_eq_render, jsJoin_cons_append]
    rfl

/-- `create_filter` renders the structured `AND` tree of its entries. -/
theorem create_filter_eq_renderB (e : String × FilterValue) (rest : FilterMap) :
    create_filter (e :: rest) = renderB (compileFilterExpr (e :: rest)) := by
  simp only [create_filter, compileFilterExpr, List.map_cons, renderB_foldl,
    compileEntryString_eq_render]
  rfl

/-- A string cannot end in two incomparable suffixes. -/
theorem jsEndsWith_false_of {x s t : String} (h : jsEndsWith x s = true)
    (hts : ¬ (t.data <:+ s.data)) (hst : ¬ (s.data <:+ t.data)) :
    jsEndsWith x t = false := by
  unfold jsEndsWith at h ⊢
  have hs : s.data <:+ x.data := List.isSuffixOf_iff_suffix.mp h
  by_contra hb
  rw [Bool.not_eq_false] at hb
  have ht : t.data <:+ x.data := List.isSuffixOf_iff_suffix.mp hb
  rcases List.suffix_or_suffix_of_suffix ht hs with hc | hc
  · exact hts hc
  · exact hst hc

/-- `true` absorbs on the left of Cypher disjunction. -/
theorem or3_left_true (y : Option Bool) : or3 (some true) y = some true := by
  rcases y with _ | b
  · rfl
  · cases b <;> rfl

/-- `true` absorbs on the right of Cypher disjunction. -/
theorem or3_right_true (y : Option Bool) : or3 y (some true) = some true := by
  rcases y with _ | b
  · rfl
  · cases b <;> rfl

/-- Claim C1: the claim requires operand values to be carried as
parameterized/escaped query arguments; `build_query` instead splices the
untrusted operand text verbatim into the query body — here a crafted
operand even escapes the movie `all(...)` clause and injects a top-level
`OR true` disjunct into the traversal constraint. -/
theorem build_query_splices_operand_text :
    build_query ⟨1, 2, some ⟨some [("status", .str "x) OR true OR (1=1")], none, none⟩⟩ =
      "MATCH\n                  (p1:Person \x7bperson_id: 1\x7d),\n                  (p2:Person \x7bperson_id: 2\x7d),\n                  p = shortestPath((p1)-[*]-(p2)) WHERE all(r IN [x in nodes(p) where x:Movie] WHERE r.status = x) OR true OR (1=1) RETURN p"
    ∧ strContains
        (build_query ⟨1, 2, some ⟨some [("status", .str "x) OR true OR (1=1")], none, none⟩⟩)
        "x) OR true OR (1=1" = true :=
  ⟨rfl, by decide⟩

/-- Claim C4: the claim requires a surfaced UnresolvedType fallback; the
resolver instead yields `null` (`none`) when neither identifying field is
present, when `movie_id` is present but `0` (JavaScript-falsy), and even
for a record identified by `episode_id` alone (it tests `tv_show_id`,
not the episode field). -/
theorem resolveType_silent_null_default :
    MovieOrTvEpisode_resolveType [] = none
    ∧ MovieOrTvEpisode_resolveType [("movie_id", .int 0)] = none
    ∧ MovieOrTvEpisode_resolveType [("episode_id", .int 3659603)] = none
    ∧ MovieOrTvEpisode_resolveType [("movie_id", .int 603)] = some "Movie"
    ∧ MovieOrTvEpisode_resolveType [("tv_show_id", .int 155513)] = some "TvEpisode" :=
  ⟨rfl, rfl, rfl, rfl, rfl⟩

/-- Claim C8: the claim requires UnknownField / InvalidFilterOperand
failures before any traversal; `create_filter` is total and validates
nothing — an unrecognized base field and a type-mismatched operand both
compile to predicates, and `build_query` embeds them in a full query. -/
theorem create_filter_never_rejects :
    create_filter [("bogus_field", .int 5)] = "r.bogus_field = 5"
    ∧ create_filter [("budget", .str "not-a-number")] = "r.budget = not-a-number"
    ∧ build_query ⟨1, 2, some ⟨some [("bogus_field", .int 5)], none, none⟩⟩ =
        "MATCH\n                  (p1:Person \x7bperson_id: 1\x7d),\n                  (p2:Person \x7bperson_id: 2\x7d),\n                  p = shortestPath((p1)-[*]-(p2)) WHERE all(r IN [x in nodes(p) where x:Movie] WHERE r.bogus_field = 5) RETURN p" :=
  ⟨rfl, rfl, rfl⟩

/-- Claim C9: the claim requires a structural check of each segment with a
MalformedSegment failure; the decomposition loop performs no check — on a
segment connecting two Person nodes it happily emits a triple whose
project is the second Person's property map. -/
theorem find_path_no_malformed_segment_check :
    find_path (fun _ => ⟨[⟨[malformedSeg]⟩]⟩) (fun _ => []) ⟨1, 2, none⟩ =
      .ok [{ person := [("person_id", .int 1)]
             relationship := [("credit_id", .str "c2")]
             project := ⟨[("person_id", .int 2)], .noAttachment⟩ }] := rfl

/-- Claim C10: the claim requires an EmptyPath / "no path" signal when the
traversal returns no record; `find_path` instead indexes `records[0]`
unconditionally, so an empty result set raises a TypeError (a
request-level error). -/
theorem find_path_empty_result_throws :
    find_path (fun _ => ⟨[]⟩) (fun _ => []) ⟨1, 2, none⟩ =
      .error "TypeError: cannot read get of undefined" := rfl

/-- Claim C6: the claim requires `parent_show` to hold the looked-up Show
or an explicit null after the call returns; `find_path` instead assigns
the unawaited lookup promise, so the field is an unresolved pending value
at return — and on a dangling show reference the promise's eventual
settlement is a thrown TypeError, not a null attachment. -/
theorem find_path_parent_show_left_pending :
    find_path (fun _ => ⟨[⟨[episodeSeg]⟩]⟩) (fun _ => []) ⟨1, 2, none⟩ =
      .ok [{ person := [("person_id", .int 1)]
             relationship := [("credit_id", .str "c1")]
             project := ⟨episodeProps,
               .pendingPromise (.error "TypeError: cannot read get of undefined")⟩ }]
    ∧ find_path (fun _ => ⟨[⟨[episodeSeg]⟩]⟩)
        (fun _ => [[("tv_id", .int 155513)]]) ⟨1, 2, none⟩ =
      .ok [{ person := [("person_id", .int 1)]
             relationship := [("credit_id", .str "c1")]
             project := ⟨episodeProps,
               .pendingPromise (.ok [("tv_id", .int 155513)])⟩ }] :=
  ⟨rfl, rfl⟩

/-- Claim C7 counterexample: a `_IN` entry whose two bounds are dates is
not compiled to typed date literals — the bounds are interpolated as raw
text, and no `date(` literal occurs anywhere in the output. -/
theorem date_in_operand_raw_text :
    create_filter [("release_date_IN", .list [.date "2020-01-01", .date "2021-01-01"])] =
      "2020-01-01 <= r.release_date <= 2021-01-01"
    ∧ strContains
        (create_filter [("release_date_IN", .list [.date "2020-01-01", .date "2021-01-01"])])
        "date(" = false :=
  ⟨rfl, by decide⟩

/-- Claim C2: with a person filter present, the person `all(...)` clause
`build_query` emits is exactly the rendering of `personClause` — the
compiled filter `OR`-ed with the two endpoint identity tests — and under
Cypher three-valued logic a Person node whose `person_id` equals either
supplied endpoint identifier satisfies that clause whatever the filter's
content evaluates to. -/
theorem build_query_person_filter_exempts_endpoints
    (pf : FilterMap) (a b : Int) (hne : create_filter pf ≠ "")
    (ρ : String → Option Int)
    (hid : ρ "person_id" = some a ∨ ρ "person_id" = some b) :
    (build_query ⟨a, b, some ⟨none, none, some pf⟩⟩ =
      queryHeader a b ++ " WHERE " ++
        ("all(r IN [x in nodes(p) where x:Person] WHERE " ++
          renderB (personClause pf a b) ++ ")") ++ " RETURN p")
    ∧ evalB ρ (personClause pf a b) = some true := by
  constructor
  · cases pf with
    | nil => exact absurd rfl hne
    | cons e rest =>
      have hbeq : (create_filter (e :: rest) == "") = false :=
        beq_eq_false_iff_ne.mpr hne
      simp only [build_query, strTruthy, hbeq, Bool.not_false, Option.isSome_some,
        Option.isSome_none, Bool.or_true, Bool.true_or, Bool.or_false, Bool.false_or,
        if_true, if_false, Option.getD_some, jsJoin, List.append_nil, List.nil_append,
        Bool.not_true, ite_true, ite_false, personClause, renderB, renderPred,
        cmpOpText, jsToString]
      rw [← create_filter_eq_renderB]
      apply String.ext
      simp [String.data_append, List.append_assoc]
  · rcases hid with h | h
    · have ha : evalPred ρ (CPred.cmp "person_id" .eq (.int a)) = some true := by
        simp [evalPred, asInt, h, cmpOpInterp]
      show or3 (or3 (evalB ρ (compileFilterExpr pf))
          (evalPred ρ (CPred.cmp "person_id" .eq (.int a))))
          (evalPred ρ (CPred.cmp "person_id" .eq (.int b))) = some true
      rw [ha, or3_right_true, or3_left_true]
    · have hb : evalPred ρ (CPred.cmp "person_id" .eq (.int b)) = some true := by
        simp [evalPred, asInt, h, cmpOpInterp]
      show or3 (or3 (evalB ρ (compileFilterExpr pf))
          (evalPred ρ (CPred.cmp "person_id" .eq (.int a))))
          (evalPred ρ (CPred.cmp "person_id" .eq (.int b))) = some true
      rw [hb, or3_right_true]

/-- Concrete instance of claim C2: person filter `gender = 1`, endpoints
1 and 2, evaluated on the endpoint node with `person_id = 1`. -/
theorem build_query_person_filter_exempts_endpoints_witness :
    create_filter [("gender", FilterValue.int 1)] ≠ ""
    ∧ ((build_query ⟨1, 2, some ⟨none, none, some [("gender", FilterValue.int 1)]⟩⟩ =
        queryHeader 1 2 ++ " WHERE " ++
          ("all(r IN [x in nodes(p) where x:Person] WHERE " ++
            renderB (personClause [("gender", FilterValue.int 1)] 1 2) ++ ")") ++
          " RETURN p")
      ∧ evalB (fun _ => some 1) (personClause [("gender", FilterValue.int 1)] 1 2) =
          some true) :=
  ⟨by decide,
   build_query_person_filter_exempts_endpoints [("gender", FilterValue.int 1)] 1 2
     (by decide) (fun _ => some 1) (Or.inl rfl)⟩

/-- Claim C3: an entry whose field name ends in `_IN` compiles — for any
pair of supplied bounds — to the chained-comparison range form on the
suffix-stripped field, whose meaning is the inclusive closed-range test
between the first and second bound; it never compiles to the Cypher
list-membership form. -/
theorem in_suffix_compiles_to_closed_range
    (x : String) (hx : jsEndsWith x "_IN" = true) :
    (∀ u w : FilterValue, compileEntry x (.list [u, w]) =
        .between u (jsSplitFirst x "_IN") w)
    ∧ (∀ a b n : Int, ∀ ρ : String → Option Int,
        ρ (jsSplitFirst x "_IN") = some n →
        (evalPred ρ (.between (.int a) (jsSplitFirst x "_IN") (.int b)) = some true ↔
          a ≤ n ∧ n ≤ b))
    ∧ (∀ v : FilterValue, ∀ f : String, ∀ args : List FilterValue,
        compileEntry x v ≠ .member f args) := by
  have hgt : jsEndsWith x "_GT" = false :=
    jsEndsWith_false_of hx (by decide) (by decide)
  have hlt : jsEndsWith x "_LT" = false :=
    jsEndsWith_false_of hx (by decide) (by decide)
  have hgte : jsEndsWith x "_GTE" = false :=
    jsEndsWith_false_of hx (by decide) (by decide)
  have hlte : jsEndsWith x "_LTE" = false :=
    jsEndsWith_false_of hx (by decide) (by decide)
  refine ⟨?_, ?_, ?_⟩
  · intro u w
    simp [compileEntry, hgt, hlt, hgte, hlte, hx, entryValues, jsIndexVal]
  · intro a b n ρ hρ
    simp [evalPred, asInt, hρ, Bool.and_eq_true, decide_eq_true_eq]
  · intro v f args
    simp [compileEntry, hgt, hlt, hgte, hlte, hx]

/-- Concrete instance of claim C3: `budget_IN` with bounds 1 and 5,
evaluated on a node whose `budget` is 3. -/
theorem in_suffix_compiles_to_closed_range_witness :
    jsEndsWith "budget_IN" "_IN" = true
    ∧ compileEntry "budget_IN" (.list [.int 1, .int 5]) =
        .between (.int 1) (jsSplitFirst "budget_IN" "_IN") (.int 5)
    ∧ (evalPred (fun _ => some 3)
        (.between (.int 1) (jsSplitFirst "budget_IN" "_IN") (.int 5)) = some true ↔
        (1 : Int) ≤ 3 ∧ (3 : Int) ≤ 5) :=
  ⟨by decide,
   (in_suffix_compiles_to_closed_range "budget_IN" (by decide)).1 (.int 1) (.int 5),
   (in_suffix_compiles_to_closed_range "budget_IN" (by decide)).2.1 1 5 3
     (fun _ => some 3) rfl⟩

/-- Claim C7 amended: `_GT`/`_LT`/`_GTE`/`_LTE` entries compile to the
corresponding comparison on the suffix-stripped field for any operand; a
SCALAR date operand is rendered as a typed `date("...")` literal, while a
date inside the bounds list of an `_IN` entry stays raw text; suffix-less
entries compile to an equality on the field; and a filter's sub-predicates
are joined as the rendering of the left-nested `AND` tree. -/
theorem create_filter_operator_compilation (x : String) (v : FilterValue) :
    (jsEndsWith x "_GT" = true →
        compileEntry x v = .cmp (jsSplitFirst x "_GT") .gt (entryValues v))
    ∧ (jsEndsWith x "_LT" = true →
        compileEntry x v = .cmp (jsSplitFirst x "_LT") .lt (entryValues v))
    ∧ (jsEndsWith x "_GTE" = true →
        compileEntry x v = .cmp (jsSplitFirst x "_GTE") .ge (entryValues v))
    ∧ (jsEndsWith x "_LTE" = true →
        compileEntry x v = .cmp (jsSplitFirst x "_LTE") .le (entryValues v))
    ∧ (jsEndsWith x "_GT" = false → jsEndsWith x "_LT" = false →
        jsEndsWith x "_GTE" = false → jsEndsWith x "_LTE" = false →
        jsEndsWith x "_IN" = false →
        compileEntry x v = .cmp x .eq (entryValues v))
    ∧ (∀ d : String, jsToString (entryValues (.date d)) = "date(\x22" ++ d ++ "\x22)")
    ∧ (∀ d : String, jsToString (.date d) = d)
    ∧ (jsEndsWith x "_IN" = true → ∀ u w : FilterValue,
        compileEntry x (.list [u, w]) = .between u (jsSplitFirst x "_IN") w)
    ∧ (∀ e rest, create_filter (e :: rest) = renderB (compileFilterExpr (e :: rest))) := by
  refine ⟨?_, ?_, ?_, ?_, ?_, ?_, ?_, ?_, ?_⟩
  · intro h
    simp [compileEntry, h]
  · intro h
    have hgt : jsEndsWith x "_GT" = false :=
      jsEndsWith_false_of h (by decide) (by decide)
    simp [compileEntry, h, hgt]
  · intro h
    have hgt : jsEndsWith x "_GT" = false :=
      jsEndsWith_false_of h (by decide) (by decide)
    have hlt : jsEndsWith x "_LT" = false :=
      jsEndsWith_false_of h (by decide) (by decide)
    simp [compileEntry, h, hgt, hlt]
  · intro h
    have hgt : jsEndsWith x "_GT" = false :=
      jsEndsWith_false_of h (by decide) (by decide)
    have hlt : jsEndsWith x "_LT" = false :=
      jsEndsWith_false_of h (by decide) (by decide)
    have hgte : jsEndsWith x "_GTE" = false :=
      jsEndsWith_false_of h (by decide) (by decide)
    simp [compileEntry, h, hgt, hlt, hgte]
  · intro h1 h2 h3 h4 h5
    simp [compileEntry, h1, h2, h3, h4, h5]
  · intro d
    rfl
  · intro d
    rfl
  · intro h u w
    have hgt : jsEndsWith x "_GT" = false :=
      jsEndsWith_false_of h (by decide) (by decide)
    have hlt : jsEndsWith x "_LT" = false :=
      jsEndsWith_false_of h (by decide) (by decide)
    have hgte : jsEndsWith x "_GTE" = false :=
      jsEndsWith_false_of h (by decide) (by decide)
    have hlte : jsEndsWith x "_LTE" = false :=
      jsEndsWith_false_of h (by decide) (by decide)
    simp [compileEntry, h, hgt, hlt, hgte, hlte, entryValues, jsIndexVal]
  · intro e rest
    exact create_filter_eq_renderB e rest

/-- Concrete instances of claim C7's branches, one per operator shape. -/
theorem create_filter_operator_compilation_witness :
    (jsEndsWith "budget_GT" "_GT" = true
      ∧ compileEntry "budget_GT" (.int 5) =
          .cmp (jsSplitFirst "budget_GT" "_GT") .gt (entryValues (.int 5)))
    ∧ (jsEndsWith "budget_LT" "_LT" = true
      ∧ compileEntry "budget_LT" (.int 5) =
          .cmp (jsSplitFirst "budget_LT" "_LT") .lt (entryValues (.int 5)))
    ∧ (jsEndsWith "budget_GTE" "_GTE" = true
      ∧ compileEntry "budget_GTE" (.int 5) =
          .cmp (jsSplitFirst "budget_GTE" "_GTE") .ge (entryValues (.int 5)))
    ∧ (jsEndsWith "budget_LTE" "_LTE" = true
      ∧ compileEntry "budget_LTE" (.int 5) =
          .cmp (jsSplitFirst "budget_LTE" "_LTE") .le (entryValues (.int 5)))
    ∧ compileEntry "status" (.str "Released") = .cmp "status" .eq (entryValues (.str "Released"))
    ∧ (jsEndsWith "release_date_IN" "_IN" = true
      ∧ compileEntry "release_date_IN" (.list [.date "2020-01-01", .date "2021-01-01"]) =
          .between (.date "2020-01-01") (jsSplitFirst "release_date_IN" "_IN")
            (.date "2021-01-01")) :=
  ⟨⟨by decide, (create_filter_operator_compilation "budget_GT" (.int 5)).1 (by decide)⟩,
   ⟨by decide, (create_filter_operator_compilation "budget_LT" (.int 5)).2.1 (by decide)⟩,
   ⟨by decide, (create_filter_operator_compilation "budget_GTE" (.int 5)).2.2.1 (by decide)⟩,
   ⟨by decide, (create_filter_operator_compilation "budget_LTE" (.int 5)).2.2.2.1 (by decide)⟩,
   (create_filter_operator_compilation "status" (.str "Released")).2.2.2.2.1
     (by decide) (by decide) (by decide) (by decide) (by decide),
   ⟨by decide, (create_filter_operator_compilation "release_date_IN"
      (.list [.date "2020-01-01", .date "2021-01-01"])).2.2.2.2.2.2.2.1 (by decide)
      (.date "2020-01-01") (.date "2021-01-01")⟩⟩

/-- Claim C5: on any non-empty alternating path returned by the traversal,
`find_path` emits exactly one triple per segment, in path order, each
triple's person being the Person-side node of its segment — whatever the
stored edge directions, which the loop never reads — and its relationship
and project properties coming from that same segment. -/
theorem find_path_decomposes_segments
    (segs : List Segment) (runLookup : String → List PropMap) (args : PathArgs)
    (halt : Alternates segs) :
    ∃ results : List TripleOut,
      find_path (fun _ => ⟨[⟨segs⟩]⟩) runLookup args = .ok results
      ∧ results.length = segs.length
      ∧ ∀ i, i < segs.length →
          ∃ seg pn qn, segs.get? i = some seg
            ∧ personSide seg = some pn
            ∧ projectSide seg = some qn
            ∧ results.get? i = some
                { person := pn.properties
                  relationship := seg.relationship.properties
                  project := attach_parent_show runLookup qn.properties } := by
  refine ⟨segs.enum.map (decomposeTriple runLookup), rfl, by simp, ?_⟩
  intro i hi
  have hseg : segs.get? i = some (segs.get ⟨i, hi⟩) := List.get?_eq_get hi
  have halti := halt i hi
  have hmap : (segs.enum.map (decomposeTriple runLookup)).get? i =
      some (decomposeTriple runLookup (i, segs.get ⟨i, hi⟩)) := by
    rw [List.get?_map, List.get?_enum, hseg]
    rfl
  by_cases hpar : i % 2 = 0
  · rw [if_pos hpar] at halti
    refine ⟨segs.get ⟨i, hi⟩, (segs.get ⟨i, hi⟩).start, (segs.get ⟨i, hi⟩).finish,
      hseg, ?_, ?_, ?_⟩
    · unfold personSide
      rw [halti.1, halti.2]
    · unfold projectSide
      rw [halti.1, halti.2]
    · rw [hmap]
      unfold decomposeTriple
      rw [if_pos hpar]
  · rw [if_neg hpar] at halti
    refine ⟨segs.get ⟨i, hi⟩, (segs.get ⟨i, hi⟩).finish, (segs.get ⟨i, hi⟩).start,
      hseg, ?_, ?_, ?_⟩
    · unfold personSide
      rw [halti.1, halti.2]
    · unfold projectSide
      rw [halti.1, halti.2]
    · rw [hmap]
      unfold decomposeTriple
      rw [if_neg hpar]

/-- Concrete instance of claim C5 on the one-segment Person→Movie path. -/
theorem find_path_decomposes_segments_witness :
    Alternates [sampleSeg]
    ∧ (∃ results : List TripleOut,
        find_path (fun _ => ⟨[⟨[sampleSeg]⟩]⟩) (fun _ => []) ⟨1, 2, none⟩ = .ok results
        ∧ results.length = [sampleSeg].length
        ∧ ∀ i, i < [sampleSeg].length →
            ∃ seg pn qn, [sampleSeg].get? i = some seg
              ∧ personSide seg = some pn
              ∧ projectSide seg = some qn
              ∧ results.get? i = some
                  { person := pn.properties
                    relationship := seg.relationship.properties
                    project := attach_parent_show (fun _ => []) qn.properties }) :=
  have halt : Alternates [sampleSeg] := by
    intro i h
    have hz : i = 0 := Nat.lt_one_iff.mp h
    subst hz
    simp [sampleSeg, isPersonNode]
  ⟨halt, find_path_decomposes_segments [sampleSeg] (fun _ => []) ⟨1, 2, none⟩ halt⟩
